import Mathlib

/-!
Verification of the archive-manager core of the FS HLE service
(`src/core/hle/service/fs/archive.h`).

The repository ships the contract header `archive.h`; the method bodies
(`archive.cpp`) are not part of the provided sources, so every behavioural
definition below is modelled from the specification's description of the
operations, while the data model (enumeration values, state fields, the
public operation surface) is translated directly from the header.

Maps (`boost::container::flat_map`, `std::unordered_map`) are embedded as
association lists with decidable-equality keys.
-/

namespace ServiceFS

/-- Supported archive types (`ArchiveIdCode`, archive.h lines 30-41). -/
inductive ArchiveIdCode where
  | SelfNCCH
  | SaveData
  | ExtSaveData
  | SharedExtSaveData
  | SystemSaveData
  | SDMC
  | SDMCWriteOnly
  | NCCH
  | OtherSaveDataGeneral
  | OtherSaveDataPermitted
deriving DecidableEq, Repr

/-- The fixed `u32` value of each `ArchiveIdCode` enumerator (archive.h lines 30-41). -/
def ArchiveIdCode.code : ArchiveIdCode → Nat
  | .SelfNCCH => 0x00000003
  | .SaveData => 0x00000004
  | .ExtSaveData => 0x00000006
  | .SharedExtSaveData => 0x00000007
  | .SystemSaveData => 0x00000008
  | .SDMC => 0x00000009
  | .SDMCWriteOnly => 0x0000000A
  | .NCCH => 0x2345678A
  | .OtherSaveDataGeneral => 0x567890B2
  | .OtherSaveDataPermitted => 0x567890B4

/-- Media types for the archives (`MediaType`, archive.h line 44). -/
inductive MediaType where
  | NAND
  | SDMC
  | GameCard
deriving DecidableEq, Repr

/-- The fixed `u32` value of each `MediaType` enumerator (archive.h line 44). -/
def MediaType.code : MediaType → Nat
  | .NAND => 0
  | .SDMC => 1
  | .GameCard => 2

/-- `typedef u64 ArchiveHandle` (archive.h line 46). The behavioural code
allocating handles is not in the provided sources; following the spec the
counter is modelled as an unbounded natural ("monotonically increasing
counter starting at 1, never reused while the manager instance is alive"). -/
abbrev ArchiveHandle : Type := Nat

/-- Modelled from the spec: `FileSys::Path` is a tagged value carrying either
nothing, a binary blob, or a text string (spec §3, data model "Path");
the concrete class lives in `core/file_sys/archive_backend.h`, outside the
provided sources. -/
inductive Path where
  | empty
  | binary (data : List Nat)
  | text (s : String)
deriving DecidableEq, Repr

/-- Modelled from the spec: `FileSys::ArchiveFormatInfo` carries size and
item-count limits and a duplicate-data flag (spec §3, data model
"Format info"); the concrete struct is outside the provided sources. -/
structure ArchiveFormatInfo where
  total_size : Nat
  number_directories : Nat
  number_files : Nat
  duplicate_data : Bool
deriving DecidableEq, Repr

/-- Modelled from the spec: the failure categories of the result envelope
(spec §7 taxonomy: Not-Found, Invalid-Path, Already-Exists, and pass-through
backend failures carried unchanged). -/
inductive ErrorKind where
  | notFound
  | invalidPath
  | alreadyExists
  | backendFailure (code : Nat)
deriving DecidableEq, Repr

/-- Association-list lookup; the embedding of `flat_map::find` /
`unordered_map::find` over decidable-equality keys. -/
def alookup {α β : Type} [DecidableEq α] (a : α) : List (α × β) → Option β
  | [] => none
  | (k, v) :: rest => if k = a then some v else alookup a rest

/-- Association-list key removal; the embedding of `map::erase`. -/
def aerase {α β : Type} [DecidableEq α] (a : α) (l : List (α × β)) : List (α × β) :=
  l.filter (fun kv => decide (kv.1 ≠ a))

/-- Replace the value bound to a key (in-place mutation through a pointer in
the C++ code); keys are untouched. -/
def aupdate {α β : Type} [DecidableEq α] (a : α) (v : β) (l : List (α × β)) :
    List (α × β) :=
  l.map (fun kv => if kv.1 = a then (a, v) else kv)

/-- The key list of an association list. -/
def akeys {α β : Type} (l : List (α × β)) : List α := l.map Prod.fst

/-- Modelled from the spec: a backend instance, "a polymorphic object bound to
one resolved storage location; owns the mechanics of file/directory creation,
deletion, rename, enumeration, free-space query" (spec §2). The concrete
`FileSys::ArchiveBackend` hierarchy is outside the provided sources; it is
modelled as the file/directory content it owns plus its free-space answer. -/
structure ArchiveBackend where
  files : List (Path × List Nat)
  dirs : List Path
  free_bytes : Nat
deriving DecidableEq, Repr

/-- Modelled from the spec: a backend factory, "one polymorphic object per
archive category" (spec §2); "immutable except one category's bound
application-container reference, settable exactly once per loaded
application" (spec §3). The bound application container is modelled as an
optional identifier. -/
structure ArchiveFactory where
  bound_app : Option Nat
deriving DecidableEq, Repr

/-- Modelled from the spec: a `File` result object, "lightweight result object
referencing (not owning) a backend instance" (spec §2); recorded by the path
and mode it was opened with. -/
structure File where
  path : Path
  mode : Nat
deriving DecidableEq, Repr

/-- Modelled from the spec: a `Directory` result object (spec §2). -/
structure Directory where
  path : Path
deriving DecidableEq, Repr

/-- The manager state (archive.h lines 240-250: `id_code_map`, `handle_map`,
`next_handle = 1`) together with the backing-store state the handle-less
operations act on. The backing store (persisted format info, extended and
system save-data locations) is modelled from the spec (§4.6, §4.7): the
concrete on-disk structures are outside the provided sources. -/
structure FSState where
  id_code_map : List (ArchiveIdCode × ArchiveFactory)
  handle_map : List (ArchiveHandle × ArchiveBackend)
  next_handle : ArchiveHandle
  format_infos : List ((ArchiveIdCode × Path) × ArchiveFormatInfo)
  ext_save_data : List ((MediaType × Nat × Nat) × (List Nat × ArchiveFormatInfo))
  sys_save_data : List ((Nat × Nat) × Unit)
deriving DecidableEq, Repr

/-- Success payloads of the public operations (handle, file, directory,
byte count, format info, or plain success). -/
inductive OpOutput where
  | unit
  | handle (h : ArchiveHandle)
  | file (f : File)
  | directory (d : Directory)
  | bytes (n : Nat)
  | formatInfo (i : ArchiveFormatInfo)
deriving DecidableEq, Repr

instance {ε α : Type} [DecidableEq ε] [DecidableEq α] : DecidableEq (Except ε α) :=
  fun a b =>
    match a, b with
    | .error e1, .error e2 =>
      if h : e1 = e2 then isTrue (by rw [h]) else isFalse (fun hc => h (by injection hc))
    | .error e1, .ok v2 => isFalse (fun hc => Except.noConfusion hc)
    | .ok v1, .error e2 => isFalse (fun hc => Except.noConfusion hc)
    | .ok v1, .ok v2 =>
      if h : v1 = v2 then isTrue (by rw [h]) else isFalse (fun hc => h (by injection hc))

/-- A factory environment: how each category's factory resolves a path into a
backend instance. The factory bodies are external collaborators (spec §2), so
theorems quantify over this behaviour. -/
def FactoryEnv : Type :=
  ArchiveIdCode → ArchiveFactory → Path → Except ErrorKind ArchiveBackend

/-- Modelled from the spec: `ArchiveManager::GetArchive` (archive.h line 238),
"a single internal lookup routine is the sole path by which any public
operation turns a handle into a backend reference" (spec §4.9). -/
def GetArchive (s : FSState) (handle : ArchiveHandle) : Option ArchiveBackend :=
  alookup handle s.handle_map

/-- Modelled from the spec: `ArchiveManager::OpenArchive` (archive.h line 60):
resolve the category in the registry (Not-Found if unregistered), ask the
factory for a backend, and only on factory success allocate the next handle,
insert the backend into the handle table and return the handle; "no handle is
allocated on any failure path" (spec §4.2). -/
def OpenArchive (fenv : FactoryEnv) (s : FSState) (id_code : ArchiveIdCode)
    (archive_path : Path) : Except ErrorKind OpOutput × FSState :=
  match alookup id_code s.id_code_map with
  | none => (.error .notFound, s)
  | some factory =>
    match fenv id_code factory archive_path with
    | .error e => (.error e, s)
    | .ok backend =>
      let handle := s.next_handle
      (.ok (.handle handle),
        { s with
          handle_map := (handle, backend) :: s.handle_map,
          next_handle := (handle : Nat) + 1 })

/-- Modelled from the spec: `ArchiveManager::CloseArchive` (archive.h line 66):
"removes and releases the backend bound to handle. Fails with Not-Found if the
handle is unknown or already closed" (spec §4.3). -/
def CloseArchive (s : FSState) (handle : ArchiveHandle) :
    Except ErrorKind OpOutput × FSState :=
  match GetArchive s handle with
  | none => (.error .notFound, s)
  | some _ => (.ok .unit, { s with handle_map := aerase handle s.handle_map })

/-- Resolve a handle through `GetArchive` and forward to the backend, writing
the possibly mutated backend back into the handle table; Not-Found when the
handle is unresolvable (spec §4.4). -/
def withArchive (s : FSState) (handle : ArchiveHandle)
    (k : ArchiveBackend → Except ErrorKind OpOutput × ArchiveBackend) :
    Except ErrorKind OpOutput × FSState :=
  match GetArchive s handle with
  | none => (.error .notFound, s)
  | some backend =>
    let r := k backend
    (r.1, { s with handle_map := aupdate handle r.2 s.handle_map })

namespace ArchiveBackend

/-- Modelled from the spec: backend file open; backend semantics are
backend-defined (spec §4.4), modelled as success exactly when the file
exists. -/
def openFile (b : ArchiveBackend) (path : Path) (mode : Nat) :
    Except ErrorKind OpOutput × ArchiveBackend :=
  match alookup path b.files with
  | none => (.error .notFound, b)
  | some _ => (.ok (.file { path := path, mode := mode }), b)

/-- Modelled from the spec: backend file deletion (spec §4.4). -/
def deleteFile (b : ArchiveBackend) (path : Path) :
    Except ErrorKind OpOutput × ArchiveBackend :=
  match alookup path b.files with
  | none => (.error .notFound, b)
  | some _ => (.ok .unit, { b with files := aerase path b.files })

/-- Modelled from the spec: backend file creation; the header documents the
new file as holding `file_size` bytes "filled with zeroes" (archive.h lines
117-125). -/
def createFile (b : ArchiveBackend) (path : Path) (file_size : Nat) :
    Except ErrorKind OpOutput × ArchiveBackend :=
  match alookup path b.files with
  | some _ => (.error .alreadyExists, b)
  | none => (.ok .unit, { b with files := (path, List.replicate file_size 0) :: b.files })

/-- Modelled from the spec: backend directory open (spec §4.4). -/
def openDirectory (b : ArchiveBackend) (path : Path) :
    Except ErrorKind OpOutput × ArchiveBackend :=
  if path ∈ b.dirs then (.ok (.directory { path := path }), b)
  else (.error .notFound, b)

/-- Modelled from the spec: backend directory creation (spec §4.4). -/
def createDirectory (b : ArchiveBackend) (path : Path) :
    Except ErrorKind OpOutput × ArchiveBackend :=
  if path ∈ b.dirs then (.error .alreadyExists, b)
  else (.ok .unit, { b with dirs := path :: b.dirs })

/-- Modelled from the spec: backend directory deletion (spec §4.4). -/
def deleteDirectory (b : ArchiveBackend) (path : Path) :
    Except ErrorKind OpOutput × ArchiveBackend :=
  if path ∈ b.dirs then
    (.ok .unit, { b with dirs := b.dirs.filter (fun d => decide (d ≠ path)) })
  else (.error .notFound, b)

/-- Modelled from the spec: recursive backend directory deletion (spec §4.4). -/
def deleteDirectoryRecursively (b : ArchiveBackend) (path : Path) :
    Except ErrorKind OpOutput × ArchiveBackend :=
  if path ∈ b.dirs then
    (.ok .unit,
      { b with
        dirs := b.dirs.filter (fun d => decide (d ≠ path)),
        files := b.files })
  else (.error .notFound, b)

/-- Modelled from the spec: backend free-space query (spec §4.4). -/
def getFreeBytes (b : ArchiveBackend) : Except ErrorKind OpOutput × ArchiveBackend :=
  (.ok (.bytes b.free_bytes), b)

/-- Modelled from the spec: backend-local file rename (spec §4.5). -/
def renameFile (b : ArchiveBackend) (src : Path) (dest : Path) :
    Except ErrorKind OpOutput × ArchiveBackend :=
  match alookup src b.files with
  | none => (.error .notFound, b)
  | some contents =>
    (.ok .unit, { b with files := (dest, contents) :: aerase src b.files })

/-- Modelled from the spec: backend-local directory rename (spec §4.5). -/
def renameDirectory (b : ArchiveBackend) (src : Path) (dest : Path) :
    Except ErrorKind OpOutput × ArchiveBackend :=
  if src ∈ b.dirs then
    (.ok .unit, { b with dirs := dest :: b.dirs.filter (fun d => decide (d ≠ src)) })
  else (.error .notFound, b)

end ArchiveBackend

/-- Modelled from the spec: `ArchiveManager::OpenFileFromArchive` (archive.h
lines 75-77): resolve the handle, forward path and mode to the backend
(spec §4.4). -/
def OpenFileFromArchive (s : FSState) (archive_handle : ArchiveHandle)
    (path : Path) (mode : Nat) : Except ErrorKind OpOutput × FSState :=
  withArchive s archive_handle (fun b => b.openFile path mode)

/-- Modelled from the spec: `ArchiveManager::DeleteFileFromArchive` (archive.h
line 85) (spec §4.4). -/
def DeleteFileFromArchive (s : FSState) (archive_handle : ArchiveHandle)
    (path : Path) : Except ErrorKind OpOutput × FSState :=
  withArchive s archive_handle (fun b => b.deleteFile path)

/-- Modelled from the spec: `ArchiveManager::CreateFileInArchive` (archive.h
lines 124-125): resolve the handle, create a file of `file_size` zero bytes
(spec §4.4; archive.h line 121). -/
def CreateFileInArchive (s : FSState) (archive_handle : ArchiveHandle)
    (path : Path) (file_size : Nat) : Except ErrorKind OpOutput × FSState :=
  withArchive s archive_handle (fun b => b.createFile path file_size)

/-- Modelled from the spec: `ArchiveManager::OpenDirectoryFromArchive`
(archive.h lines 154-155) (spec §4.4). -/
def OpenDirectoryFromArchive (s : FSState) (archive_handle : ArchiveHandle)
    (path : Path) : Except ErrorKind OpOutput × FSState :=
  withArchive s archive_handle (fun b => b.openDirectory path)

/-- Modelled from the spec: `ArchiveManager::CreateDirectoryFromArchive`
(archive.h line 133) (spec §4.4). -/
def CreateDirectoryFromArchive (s : FSState) (archive_handle : ArchiveHandle)
    (path : Path) : Except ErrorKind OpOutput × FSState :=
  withArchive s archive_handle (fun b => b.createDirectory path)

/-- Modelled from the spec: `ArchiveManager::DeleteDirectoryFromArchive`
(archive.h line 106) (spec §4.4). -/
def DeleteDirectoryFromArchive (s : FSState) (archive_handle : ArchiveHandle)
    (path : Path) : Except ErrorKind OpOutput × FSState :=
  withArchive s archive_handle (fun b => b.deleteDirectory path)

/-- Modelled from the spec:
`ArchiveManager::DeleteDirectoryRecursivelyFromArchive` (archive.h lines
114-115) (spec §4.4). -/
def DeleteDirectoryRecursivelyFromArchive (s : FSState)
    (archive_handle : ArchiveHandle) (path : Path) :
    Except ErrorKind OpOutput × FSState :=
  withArchive s archive_handle (fun b => b.deleteDirectoryRecursively path)

/-- Modelled from the spec: `ArchiveManager::GetFreeBytesInArchive` (archive.h
line 162) (spec §4.4). -/
def GetFreeBytesInArchive (s : FSState) (archive_handle : ArchiveHandle) :
    Except ErrorKind OpOutput × FSState :=
  withArchive s archive_handle (fun b => b.getFreeBytes)

/-- Modelled from the spec: `ArchiveManager::RenameFileBetweenArchives`
(archive.h lines 95-98): "resolve both the source and destination handles
independently (Not-Found if either is unresolvable), then request a rename
spanning the two (backend, path) pairs"; when both resolve to the same
backend this reduces to a backend-local rename (spec §4.5). -/
def RenameFileBetweenArchives (s : FSState) (src_archive_handle : ArchiveHandle)
    (src_path : Path) (dest_archive_handle : ArchiveHandle) (dest_path : Path) :
    Except ErrorKind OpOutput × FSState :=
  match GetArchive s src_archive_handle, GetArchive s dest_archive_handle with
  | none, _ => (.error .notFound, s)
  | some _, none => (.error .notFound, s)
  | some src_backend, some dest_backend =>
    if src_archive_handle = dest_archive_handle then
      let r := src_backend.renameFile src_path dest_path
      (r.1, { s with handle_map := aupdate src_archive_handle r.2 s.handle_map })
    else
      match alookup src_path src_backend.files with
      | none => (.error .notFound, s)
      | some contents =>
        (.ok .unit,
          { s with
            handle_map :=
              aupdate dest_archive_handle
                { dest_backend with files := (dest_path, contents) :: dest_backend.files }
                (aupdate src_archive_handle
                  { src_backend with files := aerase src_path src_backend.files }
                  s.handle_map) })

/-- Modelled from the spec: `ArchiveManager::RenameDirectoryBetweenArchives`
(archive.h lines 143-146) (spec §4.5). -/
def RenameDirectoryBetweenArchives (s : FSState)
    (src_archive_handle : ArchiveHandle) (src_path : Path)
    (dest_archive_handle : ArchiveHandle) (dest_path : Path) :
    Except ErrorKind OpOutput × FSState :=
  match GetArchive s src_archive_handle, GetArchive s dest_archive_handle with
  | none, _ => (.error .notFound, s)
  | some _, none => (.error .notFound, s)
  | some src_backend, some dest_backend =>
    if src_archive_handle = dest_archive_handle then
      let r := src_backend.renameDirectory src_path dest_path
      (r.1, { s with handle_map := aupdate src_archive_handle r.2 s.handle_map })
    else
      if src_path ∈ src_backend.dirs then
        (.ok .unit,
          { s with
            handle_map :=
              aupdate dest_archive_handle
                { dest_backend with dirs := dest_path :: dest_backend.dirs }
                (aupdate src_archive_handle
                  { src_backend with
                    dirs := src_backend.dirs.filter (fun d => decide (d ≠ src_path)) }
                  s.handle_map) })
      else (.error .notFound, s)

/-- Modelled from the spec: `ArchiveManager::FormatArchive` (archive.h lines
172-173): resolve the category (Not-Found if unregistered) and instruct the
factory to erase and reprovision the storage location with the supplied
format info; a later format-info query for the location reflects the newly
applied limits (spec §4.6). -/
def FormatArchive (s : FSState) (id_code : ArchiveIdCode)
    (format_info : ArchiveFormatInfo) (path : Path) :
    Except ErrorKind OpOutput × FSState :=
  match alookup id_code s.id_code_map with
  | none => (.error .notFound, s)
  | some _ =>
    (.ok .unit,
      { s with
        format_infos :=
          ((id_code, path), format_info) :: aerase (id_code, path) s.format_infos })

/-- Modelled from the spec: `ArchiveManager::GetArchiveFormatInfo` (archive.h
lines 182-183): "returns the format info previously persisted for a location,
and must succeed independently of whether any handle is currently open on it"
(spec §4.6); Not-Found when the category is unregistered, a backend failure
when nothing was ever persisted for the location. -/
def GetArchiveFormatInfo (s : FSState) (id_code : ArchiveIdCode)
    (archive_path : Path) : Except ErrorKind OpOutput × FSState :=
  match alookup id_code s.id_code_map with
  | none => (.error .notFound, s)
  | some _ =>
    match alookup (id_code, archive_path) s.format_infos with
    | none => (.error (.backendFailure 0), s)
    | some info => (.ok (.formatInfo info), s)

/-- Modelled from the spec: `ArchiveManager::CreateExtSaveData` (archive.h
lines 194-196): operates directly on the backing storage location identified
by (medium, high word, low word); "creating a location that already exists
fails with Already-Exists (no implicit overwrite)" (spec §4.7). -/
def CreateExtSaveData (s : FSState) (media_type : MediaType) (high : Nat)
    (low : Nat) (smdh_icon : List Nat) (format_info : ArchiveFormatInfo) :
    Except ErrorKind OpOutput × FSState :=
  match alookup (media_type, high, low) s.ext_save_data with
  | some _ => (.error .alreadyExists, s)
  | none =>
    (.ok .unit,
      { s with
        ext_save_data :=
          ((media_type, high, low), (smdh_icon, format_info)) :: s.ext_save_data })

/-- Modelled from the spec: `ArchiveManager::DeleteExtSaveData` (archive.h
line 205): "deletion removes the entire backing location; deleting a
nonexistent location fails with Not-Found" (spec §4.7). -/
def DeleteExtSaveData (s : FSState) (media_type : MediaType) (high : Nat)
    (low : Nat) : Except ErrorKind OpOutput × FSState :=
  match alookup (media_type, high, low) s.ext_save_data with
  | none => (.error .notFound, s)
  | some _ =>
    (.ok .unit, { s with ext_save_data := aerase (media_type, high, low) s.ext_save_data })

/-- Modelled from the spec: `ArchiveManager::CreateSystemSaveData` (archive.h
line 221) (spec §4.7). -/
def CreateSystemSaveData (s : FSState) (high : Nat) (low : Nat) :
    Except ErrorKind OpOutput × FSState :=
  match alookup (high, low) s.sys_save_data with
  | some _ => (.error .alreadyExists, s)
  | none => (.ok .unit, { s with sys_save_data := ((high, low), ()) :: s.sys_save_data })

/-- Modelled from the spec: `ArchiveManager::DeleteSystemSaveData` (archive.h
line 213) (spec §4.7). -/
def DeleteSystemSaveData (s : FSState) (high : Nat) (low : Nat) :
    Except ErrorKind OpOutput × FSState :=
  match alookup (high, low) s.sys_save_data with
  | none => (.error .notFound, s)
  | some _ => (.ok .unit, { s with sys_save_data := aerase (high, low) s.sys_save_data })

/-- Modelled from the spec: `ArchiveManager::RegisterSelfNCCH` (archive.h line
224): "binds the self-container category's factory to the currently loaded
application's content reference; invoking it again rebinds the factory to the
new application" (spec §4.8). Only the factory's bound reference changes;
the registry's key set does not. -/
def RegisterSelfNCCH (s : FSState) (app : Nat) :
    Except ErrorKind OpOutput × FSState :=
  (.ok .unit,
    { s with
      id_code_map := aupdate ArchiveIdCode.SelfNCCH { bound_app := some app } s.id_code_map })

/-- Modelled from the spec: `ArchiveManager::RegisterArchiveType` (archive.h
lines 232-233): "registering a category whose code already exists fails with
a configuration error"; a failed registration leaves no new registry entry
behind (spec §4.1, §7). -/
def RegisterArchiveType (m : List (ArchiveIdCode × ArchiveFactory))
    (factory : ArchiveFactory) (id_code : ArchiveIdCode) :
    Except ErrorKind Unit × List (ArchiveIdCode × ArchiveFactory) :=
  match alookup id_code m with
  | some _ => (.error .alreadyExists, m)
  | none => (.ok (), m ++ [(id_code, factory)])

/-- The list of all archive categories, in enumerator order. -/
def allArchiveIdCodes : List ArchiveIdCode :=
  [.SelfNCCH, .SaveData, .ExtSaveData, .SharedExtSaveData, .SystemSaveData,
   .SDMC, .SDMCWriteOnly, .NCCH, .OtherSaveDataGeneral, .OtherSaveDataPermitted]

/-- Modelled from the spec: `ArchiveManager::RegisterArchiveTypes` (archive.h
line 236), called at construction: "at construction, the manager registers
one factory per known archive category"; the self-container factory starts
with no bound container (spec §2, §4.1). -/
def RegisterArchiveTypes : List (ArchiveIdCode × ArchiveFactory) :=
  (allArchiveIdCodes.foldl
    (fun m id_code => (RegisterArchiveType m { bound_app := none } id_code).2) [])

/-- The state of a freshly constructed `ArchiveManager` (archive.h line 53)
over pristine backing storage: the registry built by `RegisterArchiveTypes`,
an empty handle table, and `next_handle = 1` (archive.h line 250). -/
def initState : FSState :=
  { id_code_map := RegisterArchiveTypes
    handle_map := []
    next_handle := 1
    format_infos := []
    ext_save_data := []
    sys_save_data := [] }

/-- The public operations of `ArchiveManager`, as an operation alphabet for
traces; one constructor per public member function of archive.h (besides the
constructor itself). -/
inductive Op where
  | openArchive (id_code : ArchiveIdCode) (archive_path : Path)
  | closeArchive (handle : ArchiveHandle)
  | openFileFromArchive (handle : ArchiveHandle) (path : Path) (mode : Nat)
  | deleteFileFromArchive (handle : ArchiveHandle) (path : Path)
  | renameFileBetweenArchives (src_handle : ArchiveHandle) (src_path : Path)
      (dest_handle : ArchiveHandle) (dest_path : Path)
  | deleteDirectoryFromArchive (handle : ArchiveHandle) (path : Path)
  | deleteDirectoryRecursivelyFromArchive (handle : ArchiveHandle) (path : Path)
  | createFileInArchive (handle : ArchiveHandle) (path : Path) (file_size : Nat)
  | createDirectoryFromArchive (handle : ArchiveHandle) (path : Path)
  | renameDirectoryBetweenArchives (src_handle : ArchiveHandle) (src_path : Path)
      (dest_handle : ArchiveHandle) (dest_path : Path)
  | openDirectoryFromArchive (handle : ArchiveHandle) (path : Path)
  | getFreeBytesInArchive (handle : ArchiveHandle)
  | formatArchive (id_code : ArchiveIdCode) (format_info : ArchiveFormatInfo) (path : Path)
  | getArchiveFormatInfo (id_code : ArchiveIdCode) (archive_path : Path)
  | createExtSaveData (media_type : MediaType) (high : Nat) (low : Nat)
      (smdh_icon : List Nat) (format_info : ArchiveFormatInfo)
  | deleteExtSaveData (media_type : MediaType) (high : Nat) (low : Nat)
  | deleteSystemSaveData (high : Nat) (low : Nat)
  | createSystemSaveData (high : Nat) (low : Nat)
  | registerSelfNCCH (app : Nat)
deriving DecidableEq, Repr

/-- Dispatch one public operation against the manager state. -/
def step (fenv : FactoryEnv) (s : FSState) : Op → Except ErrorKind OpOutput × FSState
  | .openArchive id_code archive_path => OpenArchive fenv s id_code archive_path
  | .closeArchive handle => CloseArchive s handle
  | .openFileFromArchive handle path mode => OpenFileFromArchive s handle path mode
  | .deleteFileFromArchive handle path => DeleteFileFromArchive s handle path
  | .renameFileBetweenArchives hs ps hd pd => RenameFileBetweenArchives s hs ps hd pd
  | .deleteDirectoryFromArchive handle path => DeleteDirectoryFromArchive s handle path
  | .deleteDirectoryRecursivelyFromArchive handle path =>
      DeleteDirectoryRecursivelyFromArchive s handle path
  | .createFileInArchive handle path file_size => CreateFileInArchive s handle path file_size
  | .createDirectoryFromArchive handle path => CreateDirectoryFromArchive s handle path
  | .renameDirectoryBetweenArchives hs ps hd pd => RenameDirectoryBetweenArchives s hs ps hd pd
  | .openDirectoryFromArchive handle path => OpenDirectoryFromArchive s handle path
  | .getFreeBytesInArchive handle => GetFreeBytesInArchive s handle
  | .formatArchive id_code format_info path => FormatArchive s id_code format_info path
  | .getArchiveFormatInfo id_code archive_path => GetArchiveFormatInfo s id_code archive_path
  | .createExtSaveData media_type high low smdh_icon format_info =>
      CreateExtSaveData s media_type high low smdh_icon format_info
  | .deleteExtSaveData media_type high low => DeleteExtSaveData s media_type high low
  | .deleteSystemSaveData high low => DeleteSystemSaveData s high low
  | .createSystemSaveData high low => CreateSystemSaveData s high low
  | .registerSelfNCCH app => RegisterSelfNCCH s app

/-- Run a sequence of public operations, returning the final state. -/
def runOps (fenv : FactoryEnv) (s : FSState) : List Op → FSState
  | [] => s
  | op :: rest => runOps fenv (step fenv s op).2 rest

/-- The handles returned by the successful `OpenArchive` calls of a trace, in
call order. -/
def openedHandles (fenv : FactoryEnv) (s : FSState) : List Op → List ArchiveHandle
  | [] => []
  | Op.openArchive id_code p :: rest =>
    match OpenArchive fenv s id_code p with
    | (Except.ok (OpOutput.handle h), s2) => h :: openedHandles fenv s2 rest
    | (_, s2) => openedHandles fenv s2 rest
  | op :: rest => openedHandles fenv (step fenv s op).2 rest

/-- The names of the public member functions `ArchiveManager` declares in
archive.h (lines 51-224), in declaration order, the constructor aside. -/
def ArchiveManagerPublicOperations : List String :=
  ["OpenArchive", "CloseArchive", "OpenFileFromArchive", "DeleteFileFromArchive",
   "RenameFileBetweenArchives", "DeleteDirectoryFromArchive",
   "DeleteDirectoryRecursivelyFromArchive", "CreateFileInArchive",
   "CreateDirectoryFromArchive", "RenameDirectoryBetweenArchives",
   "OpenDirectoryFromArchive", "GetFreeBytesInArchive", "FormatArchive",
   "GetArchiveFormatInfo", "CreateExtSaveData", "DeleteExtSaveData",
   "DeleteSystemSaveData", "CreateSystemSaveData", "RegisterSelfNCCH"]

/-- A factory environment for concrete evaluation: every factory request
yields a fresh empty backend. -/
def fenvDemo : FactoryEnv := fun _ _ _ => .ok { files := [], dirs := [], free_bytes := 0 }

/-! ### Association-list lemmas -/

theorem akeys_nil {α β : Type} : akeys ([] : List (α × β)) = [] := rfl

theorem akeys_cons {α β : Type} (kv : α × β) (l : List (α × β)) :
    akeys (kv :: l) = kv.1 :: akeys l := rfl

theorem akeys_aupdate {α β : Type} [DecidableEq α] (a : α) (v : β) (l : List (α × β)) :
    akeys (aupdate a v l) = akeys l := by
  induction l with
  | nil => rfl
  | cons kv rest ih =>
    by_cases hk : kv.1 = a
    · simp [aupdate, akeys, hk] at *
      exact ih
    · simp [aupdate, akeys, hk] at *
      exact ih

theorem alookup_none_iff {α β : Type} [DecidableEq α] {a : α} {l : List (α × β)} :
    alookup a l = none ↔ a ∉ akeys l := by
  induction l with
  | nil => simp [alookup, akeys_nil]
  | cons kv rest ih =>
    obtain ⟨k, w⟩ := kv
    rw [akeys_cons]
    by_cases hk : k = a
    · subst hk
      simp [alookup]
    · rw [List.mem_cons, not_or]
      simp only [alookup, if_neg hk, ih]
      constructor
      · intro h2
        exact ⟨fun heq => hk heq.symm, h2⟩
      · intro h2
        exact h2.2

theorem mem_akeys_of_alookup {α β : Type} [DecidableEq α] {a : α} {l : List (α × β)}
    {b : β} (hl : alookup a l = some b) : a ∈ akeys l := by
  by_contra hmem
  rw [← alookup_none_iff (l := l)] at hmem
  rw [hl] at hmem
  exact Option.noConfusion hmem

theorem alookup_aupdate_self {α β : Type} [DecidableEq α] {a : α} {l : List (α × β)}
    {b : β} (v : β) (hl : alookup a l = some b) :
    alookup a (aupdate a v l) = some v := by
  induction l with
  | nil => exact Option.noConfusion hl
  | cons kv rest ih =>
    obtain ⟨k, w⟩ := kv
    by_cases hk : k = a
    · subst hk
      rw [show aupdate k v ((k, w) :: rest) = (k, v) :: aupdate k v rest from by
        simp [aupdate]]
      simp [alookup]
    · simp only [alookup, if_neg hk] at hl
      simp only [aupdate, List.map_cons]
      rw [if_neg hk]
      simp only [alookup, if_neg hk]
      exact ih hl

theorem alookup_aerase_self {α β : Type} [DecidableEq α] (a : α) (l : List (α × β)) :
    alookup a (aerase a l) = none := by
  induction l with
  | nil => rfl
  | cons kv rest ih =>
    obtain ⟨k, w⟩ := kv
    by_cases hk : k = a
    · subst hk
      simpa [aerase, List.filter_cons] using ih
    · simpa [aerase, List.filter_cons, hk, alookup] using ih

theorem mem_akeys_aerase {α β : Type} [DecidableEq α] {x a : α} {l : List (α × β)}
    (hx : x ∈ akeys (aerase a l)) : x ∈ akeys l := by
  induction l with
  | nil => simp [aerase, akeys_nil] at hx
  | cons kv rest ih =>
    obtain ⟨k, w⟩ := kv
    rw [akeys_cons]
    by_cases hk : k = a
    · have herase : aerase a ((k, w) :: rest) = aerase a rest := by
        simp [aerase, List.filter_cons, hk]
      rw [herase] at hx
      exact List.mem_cons_of_mem _ (ih hx)
    · have herase : aerase a ((k, w) :: rest) = (k, w) :: aerase a rest := by
        simp [aerase, List.filter_cons, hk]
      rw [herase, akeys_cons] at hx
      rcases List.mem_cons.mp hx with h1 | h1
      · exact List.mem_cons.mpr (Or.inl h1)
      · exact List.mem_cons_of_mem _ (ih h1)

/-! ### Frame lemmas for the public operations -/

theorem withArchive_frame (s : FSState) (handle : ArchiveHandle)
    (k : ArchiveBackend → Except ErrorKind OpOutput × ArchiveBackend) :
    akeys (withArchive s handle k).2.handle_map = akeys s.handle_map ∧
    (withArchive s handle k).2.next_handle = s.next_handle ∧
    (withArchive s handle k).2.id_code_map = s.id_code_map := by
  unfold withArchive
  split
  · exact ⟨rfl, rfl, rfl⟩
  · exact ⟨akeys_aupdate _ _ _, rfl, rfl⟩

theorem CloseArchive_frame (s : FSState) (handle : ArchiveHandle) :
    (∀ x, x ∈ akeys (CloseArchive s handle).2.handle_map → x ∈ akeys s.handle_map) ∧
    (CloseArchive s handle).2.next_handle = s.next_handle ∧
    (CloseArchive s handle).2.id_code_map = s.id_code_map := by
  unfold CloseArchive
  split
  · exact ⟨fun x hx => hx, rfl, rfl⟩
  · exact ⟨fun x hx => mem_akeys_aerase hx, rfl, rfl⟩

theorem RenameFileBetweenArchives_frame (s : FSState) (hs : ArchiveHandle) (ps : Path)
    (hd : ArchiveHandle) (pd : Path) :
    akeys (RenameFileBetweenArchives s hs ps hd pd).2.handle_map = akeys s.handle_map ∧
    (RenameFileBetweenArchives s hs ps hd pd).2.next_handle = s.next_handle ∧
    (RenameFileBetweenArchives s hs ps hd pd).2.id_code_map = s.id_code_map := by
  unfold RenameFileBetweenArchives
  split
  · exact ⟨rfl, rfl, rfl⟩
  · exact ⟨rfl, rfl, rfl⟩
  · split
    · exact ⟨akeys_aupdate _ _ _, rfl, rfl⟩
    · split
      · exact ⟨rfl, rfl, rfl⟩
      · exact ⟨by rw [akeys_aupdate, akeys_aupdate], rfl, rfl⟩

theorem RenameDirectoryBetweenArchives_frame (s : FSState) (hs : ArchiveHandle) (ps : Path)
    (hd : ArchiveHandle) (pd : Path) :
    akeys (RenameDirectoryBetweenArchives s hs ps hd pd).2.handle_map = akeys s.handle_map ∧
    (RenameDirectoryBetweenArchives s hs ps hd pd).2.next_handle = s.next_handle ∧
    (RenameDirectoryBetweenArchives s hs ps hd pd).2.id_code_map = s.id_code_map := by
  unfold RenameDirectoryBetweenArchives
  split
  · exact ⟨rfl, rfl, rfl⟩
  · exact ⟨rfl, rfl, rfl⟩
  · split
    · exact ⟨akeys_aupdate _ _ _, rfl, rfl⟩
    · split
      · exact ⟨by rw [akeys_aupdate, akeys_aupdate], rfl, rfl⟩
      · exact ⟨rfl, rfl, rfl⟩

theorem FormatArchive_frame (s : FSState) (id_code : ArchiveIdCode)
    (format_info : ArchiveFormatInfo) (path : Path) :
    (FormatArchive s id_code format_info path).2.handle_map = s.handle_map ∧
    (FormatArchive s id_code format_info path).2.next_handle = s.next_handle ∧
    (FormatArchive s id_code format_info path).2.id_code_map = s.id_code_map := by
  unfold FormatArchive
  split
  · exact ⟨rfl, rfl, rfl⟩
  · exact ⟨rfl, rfl, rfl⟩

theorem GetArchiveFormatInfo_frame (s : FSState) (id_code : ArchiveIdCode) (p : Path) :
    (GetArchiveFormatInfo s id_code p).2 = s := by
  unfold GetArchiveFormatInfo
  split
  · rfl
  · split
    · rfl
    · rfl

theorem CreateExtSaveData_frame (s : FSState) (media_type : MediaType) (high low : Nat)
    (smdh_icon : List Nat) (format_info : ArchiveFormatInfo) :
    (CreateExtSaveData s media_type high low smdh_icon format_info).2.handle_map = s.handle_map ∧
    (CreateExtSaveData s media_type high low smdh_icon format_info).2.next_handle = s.next_handle ∧
    (CreateExtSaveData s media_type high low smdh_icon format_info).2.id_code_map = s.id_code_map := by
  unfold CreateExtSaveData
  split
  · exact ⟨rfl, rfl, rfl⟩
  · exact ⟨rfl, rfl, rfl⟩

theorem DeleteExtSaveData_frame (s : FSState) (media_type : MediaType) (high low : Nat) :
    (DeleteExtSaveData s media_type high low).2.handle_map = s.handle_map ∧
    (DeleteExtSaveData s media_type high low).2.next_handle = s.next_handle ∧
    (DeleteExtSaveData s media_type high low).2.id_code_map = s.id_code_map := by
  unfold DeleteExtSaveData
  split
  · exact ⟨rfl, rfl, rfl⟩
  · exact ⟨rfl, rfl, rfl⟩

theorem CreateSystemSaveData_frame (s : FSState) (high low : Nat) :
    (CreateSystemSaveData s high low).2.handle_map = s.handle_map ∧
    (CreateSystemSaveData s high low).2.next_handle = s.next_handle ∧
    (CreateSystemSaveData s high low).2.id_code_map = s.id_code_map := by
  unfold CreateSystemSaveData
  split
  · exact ⟨rfl, rfl, rfl⟩
  · exact ⟨rfl, rfl, rfl⟩

theorem DeleteSystemSaveData_frame (s : FSState) (high low : Nat) :
    (DeleteSystemSaveData s high low).2.handle_map = s.handle_map ∧
    (DeleteSystemSaveData s high low).2.next_handle = s.next_handle ∧
    (DeleteSystemSaveData s high low).2.id_code_map = s.id_code_map := by
  unfold DeleteSystemSaveData
  split
  · exact ⟨rfl, rfl, rfl⟩
  · exact ⟨rfl, rfl, rfl⟩

theorem RegisterSelfNCCH_frame (s : FSState) (app : Nat) :
    (RegisterSelfNCCH s app).2.handle_map = s.handle_map ∧
    (RegisterSelfNCCH s app).2.next_handle = s.next_handle ∧
    akeys (RegisterSelfNCCH s app).2.id_code_map = akeys s.id_code_map :=
  ⟨rfl, rfl, akeys_aupdate _ _ _⟩

/-! ### OpenArchive lemmas -/

theorem OpenArchive_frame (fenv : FactoryEnv) (s : FSState) (id_code : ArchiveIdCode)
    (p : Path) :
    (OpenArchive fenv s id_code p).2.id_code_map = s.id_code_map ∧
    s.next_handle ≤ (OpenArchive fenv s id_code p).2.next_handle := by
  unfold OpenArchive
  split
  · exact ⟨rfl, le_refl _⟩
  · split
    · exact ⟨rfl, le_refl _⟩
    · exact ⟨rfl, Nat.le_succ _⟩

theorem OpenArchive_ok (fenv : FactoryEnv) (s : FSState) (id_code : ArchiveIdCode)
    (p : Path) (h : ArchiveHandle) (s2 : FSState)
    (hok : OpenArchive fenv s id_code p = (.ok (.handle h), s2)) :
    h = s.next_handle ∧ s2.next_handle = s.next_handle + 1 ∧
    akeys s2.handle_map = s.next_handle :: akeys s.handle_map := by
  unfold OpenArchive at hok
  split at hok
  · simp at hok
  · split at hok
    · simp at hok
    · rw [Prod.mk.injEq] at hok
      obtain ⟨h1, h2⟩ := hok
      have hh : s.next_handle = h := by simpa using h1
      refine ⟨hh.symm, ?_, ?_⟩
      · rw [← h2]
      · rw [← h2, akeys_cons]

theorem OpenArchive_keys (fenv : FactoryEnv) (s : FSState) (id_code : ArchiveIdCode)
    (p : Path) :
    akeys (OpenArchive fenv s id_code p).2.handle_map = akeys s.handle_map ∨
    (akeys (OpenArchive fenv s id_code p).2.handle_map
        = s.next_handle :: akeys s.handle_map ∧
      (OpenArchive fenv s id_code p).2.next_handle = s.next_handle + 1) := by
  unfold OpenArchive
  split
  · exact Or.inl rfl
  · split
    · exact Or.inl rfl
    · exact Or.inr ⟨rfl, rfl⟩

/-- The step relation never shrinks the handle counter. -/
theorem step_next_handle_le (fenv : FactoryEnv) (s : FSState) (op : Op) :
    s.next_handle ≤ (step fenv s op).2.next_handle := by
  cases op with
  | openArchive id_code p => exact (OpenArchive_frame fenv s id_code p).2
  | closeArchive handle => exact le_of_eq (CloseArchive_frame s handle).2.1.symm
  | openFileFromArchive handle p mode => exact le_of_eq (withArchive_frame s handle _).2.1.symm
  | deleteFileFromArchive handle p => exact le_of_eq (withArchive_frame s handle _).2.1.symm
  | renameFileBetweenArchives hs ps hd pd =>
      exact le_of_eq (RenameFileBetweenArchives_frame s hs ps hd pd).2.1.symm
  | deleteDirectoryFromArchive handle p => exact le_of_eq (withArchive_frame s handle _).2.1.symm
  | deleteDirectoryRecursivelyFromArchive handle p =>
      exact le_of_eq (withArchive_frame s handle _).2.1.symm
  | createFileInArchive handle p n => exact le_of_eq (withArchive_frame s handle _).2.1.symm
  | createDirectoryFromArchive handle p => exact le_of_eq (withArchive_frame s handle _).2.1.symm
  | renameDirectoryBetweenArchives hs ps hd pd =>
      exact le_of_eq (RenameDirectoryBetweenArchives_frame s hs ps hd pd).2.1.symm
  | openDirectoryFromArchive handle p => exact le_of_eq (withArchive_frame s handle _).2.1.symm
  | getFreeBytesInArchive handle => exact le_of_eq (withArchive_frame s handle _).2.1.symm
  | formatArchive id_code info p => exact le_of_eq (FormatArchive_frame s id_code info p).2.1.symm
  | getArchiveFormatInfo id_code p =>
      exact le_of_eq (congrArg FSState.next_handle (GetArchiveFormatInfo_frame s id_code p)).symm
  | createExtSaveData m hi lo icon info =>
      exact le_of_eq (CreateExtSaveData_frame s m hi lo icon info).2.1.symm
  | deleteExtSaveData m hi lo => exact le_of_eq (DeleteExtSaveData_frame s m hi lo).2.1.symm
  | deleteSystemSaveData hi lo => exact le_of_eq (DeleteSystemSaveData_frame s hi lo).2.1.symm
  | createSystemSaveData hi lo => exact le_of_eq (CreateSystemSaveData_frame s hi lo).2.1.symm
  | registerSelfNCCH app => exact le_of_eq (RegisterSelfNCCH_frame s app).2.1.symm

/-- The step relation never changes the key set of the category registry. -/
theorem step_id_code_keys (fenv : FactoryEnv) (s : FSState) (op : Op) :
    akeys (step fenv s op).2.id_code_map = akeys s.id_code_map := by
  cases op with
  | openArchive id_code p => exact congrArg akeys (OpenArchive_frame fenv s id_code p).1
  | closeArchive handle => exact congrArg akeys (CloseArchive_frame s handle).2.2
  | openFileFromArchive handle p mode => exact congrArg akeys (withArchive_frame s handle _).2.2
  | deleteFileFromArchive handle p => exact congrArg akeys (withArchive_frame s handle _).2.2
  | renameFileBetweenArchives hs ps hd pd =>
      exact congrArg akeys (RenameFileBetweenArchives_frame s hs ps hd pd).2.2
  | deleteDirectoryFromArchive handle p => exact congrArg akeys (withArchive_frame s handle _).2.2
  | deleteDirectoryRecursivelyFromArchive handle p =>
      exact congrArg akeys (withArchive_frame s handle _).2.2
  | createFileInArchive handle p n => exact congrArg akeys (withArchive_frame s handle _).2.2
  | createDirectoryFromArchive handle p => exact congrArg akeys (withArchive_frame s handle _).2.2
  | renameDirectoryBetweenArchives hs ps hd pd =>
      exact congrArg akeys (RenameDirectoryBetweenArchives_frame s hs ps hd pd).2.2
  | openDirectoryFromArchive handle p => exact congrArg akeys (withArchive_frame s handle _).2.2
  | getFreeBytesInArchive handle => exact congrArg akeys (withArchive_frame s handle _).2.2
  | formatArchive id_code info p => exact congrArg akeys (FormatArchive_frame s id_code info p).2.2
  | getArchiveFormatInfo id_code p =>
      exact congrArg (fun t => akeys t.id_code_map) (GetArchiveFormatInfo_frame s id_code p)
  | createExtSaveData m hi lo icon info =>
      exact congrArg akeys (CreateExtSaveData_frame s m hi lo icon info).2.2
  | deleteExtSaveData m hi lo => exact congrArg akeys (DeleteExtSaveData_frame s m hi lo).2.2
  | deleteSystemSaveData hi lo => exact congrArg akeys (DeleteSystemSaveData_frame s hi lo).2.2
  | createSystemSaveData hi lo => exact congrArg akeys (CreateSystemSaveData_frame s hi lo).2.2
  | registerSelfNCCH app => exact (RegisterSelfNCCH_frame s app).2.2

/-- The two ways a step can touch the handle table: either a key of the new
table was already a key, or it is the freshly allocated counter value and the
counter strictly increased. -/
theorem step_handle_evolution (fenv : FactoryEnv) (s : FSState) (op : Op) :
    s.next_handle ≤ (step fenv s op).2.next_handle ∧
    ∀ x, x ∈ akeys (step fenv s op).2.handle_map →
      x ∈ akeys s.handle_map ∨
        (x = s.next_handle ∧ s.next_handle < (step fenv s op).2.next_handle) := by
  refine ⟨step_next_handle_le fenv s op, ?_⟩
  cases op with
  | openArchive id_code p =>
    intro x hx
    simp only [step] at hx ⊢
    rcases OpenArchive_keys fenv s id_code p with h1 | ⟨h1, h2⟩
    · rw [h1] at hx
      exact Or.inl hx
    · rw [h1] at hx
      rcases List.mem_cons.mp hx with h3 | h3
      · refine Or.inr ⟨h3, ?_⟩
        rw [h2]
        exact Nat.lt_succ_self _
      · exact Or.inl h3
  | closeArchive handle => exact fun x hx => Or.inl ((CloseArchive_frame s handle).1 x hx)
  | openFileFromArchive handle p mode =>
      exact fun x hx => Or.inl ((withArchive_frame s handle _).1 ▸ hx)
  | deleteFileFromArchive handle p =>
      exact fun x hx => Or.inl ((withArchive_frame s handle _).1 ▸ hx)
  | renameFileBetweenArchives hs ps hd pd =>
      exact fun x hx => Or.inl ((RenameFileBetweenArchives_frame s hs ps hd pd).1 ▸ hx)
  | deleteDirectoryFromArchive handle p =>
      exact fun x hx => Or.inl ((withArchive_frame s handle _).1 ▸ hx)
  | deleteDirectoryRecursivelyFromArchive handle p =>
      exact fun x hx => Or.inl ((withArchive_frame s handle _).1 ▸ hx)
  | createFileInArchive handle p n =>
      exact fun x hx => Or.inl ((withArchive_frame s handle _).1 ▸ hx)
  | createDirectoryFromArchive handle p =>
      exact fun x hx => Or.inl ((withArchive_frame s handle _).1 ▸ hx)
  | renameDirectoryBetweenArchives hs ps hd pd =>
      exact fun x hx => Or.inl ((RenameDirectoryBetweenArchives_frame s hs ps hd pd).1 ▸ hx)
  | openDirectoryFromArchive handle p =>
      exact fun x hx => Or.inl ((withArchive_frame s handle _).1 ▸ hx)
  | getFreeBytesInArchive handle =>
      exact fun x hx => Or.inl ((withArchive_frame s handle _).1 ▸ hx)
  | formatArchive id_code info p =>
      exact fun x hx => Or.inl ((FormatArchive_frame s id_code info p).1 ▸ hx)
  | getArchiveFormatInfo id_code p =>
      exact fun x hx => Or.inl ((GetArchiveFormatInfo_frame s id_code p) ▸ hx)
  | createExtSaveData m hi lo icon info =>
      exact fun x hx => Or.inl ((CreateExtSaveData_frame s m hi lo icon info).1 ▸ hx)
  | deleteExtSaveData m hi lo =>
      exact fun x hx => Or.inl ((DeleteExtSaveData_frame s m hi lo).1 ▸ hx)
  | deleteSystemSaveData hi lo =>
      exact fun x hx => Or.inl ((DeleteSystemSaveData_frame s hi lo).1 ▸ hx)
  | createSystemSaveData hi lo =>
      exact fun x hx => Or.inl ((CreateSystemSaveData_frame s hi lo).1 ▸ hx)
  | registerSelfNCCH app =>
      exact fun x hx => Or.inl ((RegisterSelfNCCH_frame s app).1 ▸ hx)

/-- All open handles are strictly below the handle counter. -/
def HandlesBounded (s : FSState) : Prop :=
  ∀ x, x ∈ akeys s.handle_map → x < s.next_handle

theorem step_bounded (fenv : FactoryEnv) (s : FSState) (op : Op)
    (hb : HandlesBounded s) : HandlesBounded (step fenv s op).2 := by
  intro x hx
  obtain ⟨hle, hkeys⟩ := step_handle_evolution fenv s op
  rcases hkeys x hx with h1 | ⟨h1, h2⟩
  · exact lt_of_lt_of_le (hb x h1) hle
  · rw [h1]
    exact h2

theorem step_handleFree (fenv : FactoryEnv) (s : FSState) (op : Op) (h : ArchiveHandle)
    (hnot : h ∉ akeys s.handle_map) (hlt : h < s.next_handle) :
    h ∉ akeys (step fenv s op).2.handle_map ∧ h < (step fenv s op).2.next_handle := by
  obtain ⟨hle, hkeys⟩ := step_handle_evolution fenv s op
  constructor
  · intro hmem
    rcases hkeys h hmem with h1 | ⟨h1, _⟩
    · exact hnot h1
    · exact absurd h1 (Nat.ne_of_lt hlt)
  · exact lt_of_lt_of_le hlt hle

theorem runOps_next_handle_le (fenv : FactoryEnv) (ops : List Op) (s : FSState) :
    s.next_handle ≤ (runOps fenv s ops).next_handle := by
  induction ops generalizing s with
  | nil => exact le_refl _
  | cons op rest ih =>
    exact le_trans (step_next_handle_le fenv s op) (ih (step fenv s op).2)

theorem runOps_bounded (fenv : FactoryEnv) (ops : List Op) (s : FSState)
    (hb : HandlesBounded s) : HandlesBounded (runOps fenv s ops) := by
  induction ops generalizing s with
  | nil => exact hb
  | cons op rest ih => exact ih _ (step_bounded fenv s op hb)

theorem runOps_handleFree (fenv : FactoryEnv) (ops : List Op) (s : FSState)
    (h : ArchiveHandle) (hnot : h ∉ akeys s.handle_map) (hlt : h < s.next_handle) :
    h ∉ akeys (runOps fenv s ops).handle_map ∧ h < (runOps fenv s ops).next_handle := by
  induction ops generalizing s with
  | nil => exact ⟨hnot, hlt⟩
  | cons op rest ih =>
    obtain ⟨h1, h2⟩ := step_handleFree fenv s op h hnot hlt
    exact ih _ h1 h2

theorem runOps_id_code_keys (fenv : FactoryEnv) (ops : List Op) (s : FSState) :
    akeys (runOps fenv s ops).id_code_map = akeys s.id_code_map := by
  induction ops generalizing s with
  | nil => rfl
  | cons op rest ih =>
    exact (ih (step fenv s op).2).trans (step_id_code_keys fenv s op)

/-- Every handle a trace returns is at least the handle counter the trace
started from. -/
theorem openedHandles_lower_bound (fenv : FactoryEnv) (ops : List Op) (s : FSState) :
    ∀ x, x ∈ openedHandles fenv s ops → s.next_handle ≤ x := by
  induction ops generalizing s with
  | nil =>
    intro x hx
    simp [openedHandles] at hx
  | cons op rest ih =>
    intro x hx
    cases op with
    | openArchive id_code p =>
      rcases hoa : OpenArchive fenv s id_code p with ⟨r, s2⟩
      have hle : s.next_handle ≤ s2.next_handle := by
        have hfr := (OpenArchive_frame fenv s id_code p).2
        rw [hoa] at hfr
        exact hfr
      simp only [openedHandles, hoa] at hx
      cases r with
      | error e =>
        exact le_trans hle (ih s2 x hx)
      | ok out =>
        cases out with
        | handle h =>
          rcases List.mem_cons.mp hx with h1 | h1
          · subst h1
            exact le_of_eq (OpenArchive_ok fenv s id_code p x s2 hoa).1.symm
          · exact le_trans hle (ih s2 x h1)
        | unit => exact le_trans hle (ih s2 x hx)
        | file f => exact le_trans hle (ih s2 x hx)
        | directory d => exact le_trans hle (ih s2 x hx)
        | bytes n => exact le_trans hle (ih s2 x hx)
        | formatInfo i => exact le_trans hle (ih s2 x hx)
    | closeArchive handle =>
      simp only [openedHandles] at hx
      exact le_trans (step_next_handle_le fenv s _) (ih _ x hx)
    | openFileFromArchive handle p mode =>
      simp only [openedHandles] at hx
      exact le_trans (step_next_handle_le fenv s _) (ih _ x hx)
    | deleteFileFromArchive handle p =>
      simp only [openedHandles] at hx
      exact le_trans (step_next_handle_le fenv s _) (ih _ x hx)
    | renameFileBetweenArchives hs ps hd pd =>
      simp only [openedHandles] at hx
      exact le_trans (step_next_handle_le fenv s _) (ih _ x hx)
    | deleteDirectoryFromArchive handle p =>
      simp only [openedHandles] at hx
      exact le_trans (step_next_handle_le fenv s _) (ih _ x hx)
    | deleteDirectoryRecursivelyFromArchive handle p =>
      simp only [openedHandles] at hx
      exact le_trans (step_next_handle_le fenv s _) (ih _ x hx)
    | createFileInArchive handle p n =>
      simp only [openedHandles] at hx
      exact le_trans (step_next_handle_le fenv s _) (ih _ x hx)
    | createDirectoryFromArchive handle p =>
      simp only [openedHandles] at hx
      exact le_trans (step_next_handle_le fenv s _) (ih _ x hx)
    | renameDirectoryBetweenArchives hs ps hd pd =>
      simp only [openedHandles] at hx
      exact le_trans (step_next_handle_le fenv s _) (ih _ x hx)
    | openDirectoryFromArchive handle p =>
      simp only [openedHandles] at hx
      exact le_trans (step_next_handle_le fenv s _) (ih _ x hx)
    | getFreeBytesInArchive handle =>
      simp only [openedHandles] at hx
      exact le_trans (step_next_handle_le fenv s _) (ih _ x hx)
    | formatArchive id_code info p =>
      simp only [openedHandles] at hx
      exact le_trans (step_next_handle_le fenv s _) (ih _ x hx)
    | getArchiveFormatInfo id_code p =>
      simp only [openedHandles] at hx
      exact le_trans (step_next_handle_le fenv s _) (ih _ x hx)
    | createExtSaveData m hi lo icon info =>
      simp only [openedHandles] at hx
      exact le_trans (step_next_handle_le fenv s _) (ih _ x hx)
    | deleteExtSaveData m hi lo =>
      simp only [openedHandles] at hx
      exact le_trans (step_next_handle_le fenv s _) (ih _ x hx)
    | deleteSystemSaveData hi lo =>
      simp only [openedHandles] at hx
      exact le_trans (step_next_handle_le fenv s _) (ih _ x hx)
    | createSystemSaveData hi lo =>
      simp only [openedHandles] at hx
      exact le_trans (step_next_handle_le fenv s _) (ih _ x hx)
    | registerSelfNCCH app =>
      simp only [openedHandles] at hx
      exact le_trans (step_next_handle_le fenv s _) (ih _ x hx)

/-- The handles returned along any trace are strictly increasing. -/
theorem openedHandles_pairwise_lt (fenv : FactoryEnv) (ops : List Op) (s : FSState) :
    List.Pairwise (fun a b => a < b) (openedHandles fenv s ops) := by
  induction ops generalizing s with
  | nil =>
    simp [openedHandles]
  | cons op rest ih =>
    cases op with
    | openArchive id_code p =>
      rcases hoa : OpenArchive fenv s id_code p with ⟨r, s2⟩
      simp only [openedHandles, hoa]
      cases r with
      | error e => exact ih s2
      | ok out =>
        cases out with
        | handle h =>
          refine List.Pairwise.cons ?_ (ih s2)
          intro x hx
          obtain ⟨hh, hnext, _⟩ := OpenArchive_ok fenv s id_code p h s2 hoa
          have hb := openedHandles_lower_bound fenv rest s2 x hx
          rw [hnext] at hb
          rw [hh]
          exact Nat.lt_of_succ_le hb
        | unit => exact ih s2
        | file f => exact ih s2
        | directory d => exact ih s2
        | bytes n => exact ih s2
        | formatInfo i => exact ih s2
    | closeArchive handle => exact ih _
    | openFileFromArchive handle p mode => exact ih _
    | deleteFileFromArchive handle p => exact ih _
    | renameFileBetweenArchives hs ps hd pd => exact ih _
    | deleteDirectoryFromArchive handle p => exact ih _
    | deleteDirectoryRecursivelyFromArchive handle p => exact ih _
    | createFileInArchive handle p n => exact ih _
    | createDirectoryFromArchive handle p => exact ih _
    | renameDirectoryBetweenArchives hs ps hd pd => exact ih _
    | openDirectoryFromArchive handle p => exact ih _
    | getFreeBytesInArchive handle => exact ih _
    | formatArchive id_code info p => exact ih _
    | getArchiveFormatInfo id_code p => exact ih _
    | createExtSaveData m hi lo icon info => exact ih _
    | deleteExtSaveData m hi lo => exact ih _
    | deleteSystemSaveData hi lo => exact ih _
    | createSystemSaveData hi lo => exact ih _
    | registerSelfNCCH app => exact ih _

/-! ### Unresolvable handles fail with Not-Found through the resolution routine -/

theorem withArchive_notFound (s : FSState) (handle : ArchiveHandle)
    (k : ArchiveBackend → Except ErrorKind OpOutput × ArchiveBackend)
    (hn : GetArchive s handle = none) :
    (withArchive s handle k).1 = Except.error ErrorKind.notFound := by
  unfold withArchive
  rw [hn]

theorem CloseArchive_notFound (s : FSState) (handle : ArchiveHandle)
    (hn : GetArchive s handle = none) :
    (CloseArchive s handle).1 = Except.error ErrorKind.notFound := by
  unfold CloseArchive
  rw [hn]

theorem RenameFileBetweenArchives_notFound_src (s : FSState) (hs : ArchiveHandle)
    (ps : Path) (hd : ArchiveHandle) (pd : Path) (hn : GetArchive s hs = none) :
    (RenameFileBetweenArchives s hs ps hd pd).1 = Except.error ErrorKind.notFound := by
  unfold RenameFileBetweenArchives
  rw [hn]

theorem RenameFileBetweenArchives_notFound_dest (s : FSState) (hs : ArchiveHandle)
    (ps : Path) (hd : ArchiveHandle) (pd : Path) (hn : GetArchive s hd = none) :
    (RenameFileBetweenArchives s hs ps hd pd).1 = Except.error ErrorKind.notFound := by
  unfold RenameFileBetweenArchives
  rw [hn]
  cases hG : GetArchive s hs with
  | none => rfl
  | some b => rfl

theorem RenameDirectoryBetweenArchives_notFound_src (s : FSState) (hs : ArchiveHandle)
    (ps : Path) (hd : ArchiveHandle) (pd : Path) (hn : GetArchive s hs = none) :
    (RenameDirectoryBetweenArchives s hs ps hd pd).1 = Except.error ErrorKind.notFound := by
  unfold RenameDirectoryBetweenArchives
  rw [hn]

theorem RenameDirectoryBetweenArchives_notFound_dest (s : FSState) (hs : ArchiveHandle)
    (ps : Path) (hd : ArchiveHandle) (pd : Path) (hn : GetArchive s hd = none) :
    (RenameDirectoryBetweenArchives s hs ps hd pd).1 = Except.error ErrorKind.notFound := by
  unfold RenameDirectoryBetweenArchives
  rw [hn]
  cases hG : GetArchive s hs with
  | none => rfl
  | some b => rfl

theorem initState_bounded : HandlesBounded initState := by
  intro x hx
  simp [initState, akeys_nil] at hx

/-! ### Concrete fixtures for evaluation -/

/-- A trivial format info for concrete evaluation. -/
def demoInfo : ArchiveFormatInfo :=
  { total_size := 0, number_directories := 0, number_files := 0, duplicate_data := false }

/-- A manager state whose registry is empty, for exercising the
unregistered-category path. -/
def demoEmptyRegistry : FSState := { initState with id_code_map := [] }

/-- A manager state with one archive open under handle 1. -/
def demoOpenState : FSState := (OpenArchive fenvDemo initState .SaveData .empty).2

/-! ### Claim theorems -/

/-- C1: for every sequence of successful OpenArchive calls on one manager
instance, the returned handles are pairwise distinct and strictly increasing;
the handle counter starts at 1, increases strictly on every successful open,
never drops below 1, and no successful OpenArchive returns the reserved
invalid handle 0. -/
theorem openArchive_handles_strictly_increasing (fenv : FactoryEnv) (ops : List Op) :
    initState.next_handle = 1 ∧
    List.Pairwise (fun a b => a < b) (openedHandles fenv initState ops) ∧
    (∀ x, x ∈ openedHandles fenv initState ops → 1 ≤ x ∧ x ≠ 0) ∧
    1 ≤ (runOps fenv initState ops).next_handle ∧
    (∀ s id_code p h s2, OpenArchive fenv s id_code p = (Except.ok (OpOutput.handle h), s2) →
      h = s.next_handle ∧ s2.next_handle = s.next_handle + 1) := by
  refine ⟨rfl, openedHandles_pairwise_lt fenv ops initState, ?_, ?_, ?_⟩
  · intro x hx
    have hb : (1 : Nat) ≤ x := openedHandles_lower_bound fenv ops initState x hx
    exact ⟨hb, Nat.one_le_iff_ne_zero.mp hb⟩
  · exact runOps_next_handle_le fenv ops initState
  · intro s id_code p h s2 hok
    obtain ⟨h1, h2, _⟩ := OpenArchive_ok fenv s id_code p h s2 hok
    exact ⟨h1, h2⟩

theorem openArchive_handles_strictly_increasing_witness :
    OpenArchive fenvDemo initState .SaveData .empty
        = (Except.ok (OpOutput.handle 1), demoOpenState) ∧
    (1 : ArchiveHandle) = initState.next_handle ∧
    demoOpenState.next_handle = initState.next_handle + 1 :=
  ⟨by decide,
    (openArchive_handles_strictly_increasing fenvDemo []).2.2.2.2 initState .SaveData
      .empty 1 demoOpenState (by decide)⟩

/-- C2: after CloseArchive(h) succeeds, every subsequent public operation
taking h — a second close, the eight single-handle file/directory operations,
and either side of both rename operations — fails with Not-Found, because the
single internal resolution routine GetArchive no longer resolves h. -/
theorem closeArchive_invalidates_handle (fenv : FactoryEnv) (ops0 ops1 : List Op)
    (h h2 : ArchiveHandle) (p ps pd : Path) (mode file_size : Nat) (s0 s2 : FSState)
    (hs0 : s0 = runOps fenv initState ops0)
    (hclose : (CloseArchive s0 h).1 = Except.ok OpOutput.unit)
    (hs2 : s2 = runOps fenv (CloseArchive s0 h).2 ops1) :
    GetArchive s2 h = none ∧
    (CloseArchive s2 h).1 = Except.error ErrorKind.notFound ∧
    (OpenFileFromArchive s2 h p mode).1 = Except.error ErrorKind.notFound ∧
    (DeleteFileFromArchive s2 h p).1 = Except.error ErrorKind.notFound ∧
    (CreateFileInArchive s2 h p file_size).1 = Except.error ErrorKind.notFound ∧
    (OpenDirectoryFromArchive s2 h p).1 = Except.error ErrorKind.notFound ∧
    (CreateDirectoryFromArchive s2 h p).1 = Except.error ErrorKind.notFound ∧
    (DeleteDirectoryFromArchive s2 h p).1 = Except.error ErrorKind.notFound ∧
    (DeleteDirectoryRecursivelyFromArchive s2 h p).1 = Except.error ErrorKind.notFound ∧
    (GetFreeBytesInArchive s2 h).1 = Except.error ErrorKind.notFound ∧
    (RenameFileBetweenArchives s2 h ps h2 pd).1 = Except.error ErrorKind.notFound ∧
    (RenameFileBetweenArchives s2 h2 ps h pd).1 = Except.error ErrorKind.notFound ∧
    (RenameDirectoryBetweenArchives s2 h ps h2 pd).1 = Except.error ErrorKind.notFound ∧
    (RenameDirectoryBetweenArchives s2 h2 ps h pd).1 = Except.error ErrorKind.notFound := by
  have hb0 : HandlesBounded s0 := by
    rw [hs0]
    exact runOps_bounded fenv ops0 initState initState_bounded
  unfold CloseArchive at hclose
  cases hG : GetArchive s0 h with
  | none =>
    rw [hG] at hclose
    simp at hclose
  | some backend =>
    have hC2 : (CloseArchive s0 h).2
        = { s0 with handle_map := aerase h s0.handle_map } := by
      unfold CloseArchive
      rw [hG]
    have hmem : h ∈ akeys s0.handle_map := mem_akeys_of_alookup hG
    have hlt : h < s0.next_handle := hb0 h hmem
    have hfree1 : h ∉ akeys (CloseArchive s0 h).2.handle_map := by
      rw [hC2]
      rw [← alookup_none_iff]
      exact alookup_aerase_self h s0.handle_map
    have hlt1 : h < (CloseArchive s0 h).2.next_handle := by
      rw [hC2]
      exact hlt
    obtain ⟨hfree2, _⟩ :=
      runOps_handleFree fenv ops1 (CloseArchive s0 h).2 h hfree1 hlt1
    rw [← hs2] at hfree2
    have hnone : GetArchive s2 h = none := alookup_none_iff.mpr hfree2
    refine ⟨hnone, CloseArchive_notFound s2 h hnone,
      withArchive_notFound s2 h _ hnone, withArchive_notFound s2 h _ hnone,
      withArchive_notFound s2 h _ hnone, withArchive_notFound s2 h _ hnone,
      withArchive_notFound s2 h _ hnone, withArchive_notFound s2 h _ hnone,
      withArchive_notFound s2 h _ hnone, withArchive_notFound s2 h _ hnone,
      RenameFileBetweenArchives_notFound_src s2 h ps h2 pd hnone,
      RenameFileBetweenArchives_notFound_dest s2 h2 ps h pd hnone,
      RenameDirectoryBetweenArchives_notFound_src s2 h ps h2 pd hnone,
      RenameDirectoryBetweenArchives_notFound_dest s2 h2 ps h pd hnone⟩

theorem closeArchive_invalidates_handle_witness :
    (CloseArchive (runOps fenvDemo initState [Op.openArchive .SaveData .empty]) 1).1
        = Except.ok OpOutput.unit ∧
    GetArchive (runOps fenvDemo
      (CloseArchive (runOps fenvDemo initState [Op.openArchive .SaveData .empty]) 1).2 [])
      1 = none :=
  ⟨by decide,
    (closeArchive_invalidates_handle fenvDemo [Op.openArchive .SaveData .empty] [] 1 2
      Path.empty Path.empty Path.empty 0 0
      (runOps fenvDemo initState [Op.openArchive .SaveData .empty])
      (runOps fenvDemo
        (CloseArchive (runOps fenvDemo initState [Op.openArchive .SaveData .empty]) 1).2 [])
      rfl (by decide) rfl).1⟩

/-- C3: OpenArchive with an unregistered category fails with Not-Found and
changes nothing; any failed OpenArchive, failed extended/system save-data
create, or failed registration leaves the state exactly as it was. -/
theorem failed_operations_leave_no_trace (fenv : FactoryEnv) (s : FSState)
    (id_code : ArchiveIdCode) (p : Path) (e1 e2 e3 e4 : ErrorKind)
    (m : List (ArchiveIdCode × ArchiveFactory)) (factory : ArchiveFactory)
    (media_type : MediaType) (high low : Nat) (icon : List Nat)
    (info : ArchiveFormatInfo) :
    (alookup id_code s.id_code_map = none →
      OpenArchive fenv s id_code p = (Except.error ErrorKind.notFound, s)) ∧
    ((OpenArchive fenv s id_code p).1 = Except.error e1 →
      (OpenArchive fenv s id_code p).2 = s) ∧
    ((CreateExtSaveData s media_type high low icon info).1 = Except.error e2 →
      (CreateExtSaveData s media_type high low icon info).2 = s) ∧
    ((CreateSystemSaveData s high low).1 = Except.error e3 →
      (CreateSystemSaveData s high low).2 = s) ∧
    ((RegisterArchiveType m factory id_code).1 = Except.error e4 →
      (RegisterArchiveType m factory id_code).2 = m) := by
  refine ⟨?_, ?_, ?_, ?_, ?_⟩
  · intro hn
    unfold OpenArchive
    rw [hn]
  · unfold OpenArchive
    cases hl : alookup id_code s.id_code_map with
    | none =>
      intro he
      rfl
    | some factory2 =>
      dsimp only
      cases hf : fenv id_code factory2 p with
      | error e =>
        intro he
        rfl
      | ok b =>
        intro he
        simp at he
  · unfold CreateExtSaveData
    cases hl : alookup (media_type, high, low) s.ext_save_data with
    | none =>
      intro he
      simp at he
    | some v =>
      intro he
      rfl
  · unfold CreateSystemSaveData
    cases hl : alookup (high, low) s.sys_save_data with
    | none =>
      intro he
      simp at he
    | some v =>
      intro he
      rfl
  · unfold RegisterArchiveType
    cases hl : alookup id_code m with
    | none =>
      intro he
      simp at he
    | some v =>
      intro he
      rfl

theorem failed_operations_leave_no_trace_witness :
    OpenArchive fenvDemo demoEmptyRegistry .SaveData .empty
        = (Except.error ErrorKind.notFound, demoEmptyRegistry) ∧
    (RegisterArchiveType RegisterArchiveTypes { bound_app := none } .SaveData).2
        = RegisterArchiveTypes :=
  ⟨(failed_operations_leave_no_trace fenvDemo demoEmptyRegistry .SaveData .empty
      .notFound .notFound .notFound .notFound RegisterArchiveTypes { bound_app := none }
      .NAND 0 0 [] demoInfo).1 (by decide),
    (failed_operations_leave_no_trace fenvDemo demoEmptyRegistry .SaveData .empty
      .notFound .notFound .notFound .alreadyExists RegisterArchiveTypes { bound_app := none }
      .NAND 0 0 [] demoInfo).2.2.2.2 (by decide)⟩

/-- C5: if FormatArchive(category, path, info) succeeds then
GetArchiveFormatInfo(category, path) on the resulting state returns exactly
info, and GetArchiveFormatInfo is independent of the handle table. -/
theorem formatArchive_persists_format_info (s : FSState) (id_code : ArchiveIdCode)
    (info : ArchiveFormatInfo) (p : Path)
    (hm : List (ArchiveHandle × ArchiveBackend))
    (hok : (FormatArchive s id_code info p).1 = Except.ok OpOutput.unit) :
    (GetArchiveFormatInfo (FormatArchive s id_code info p).2 id_code p).1
        = Except.ok (OpOutput.formatInfo info) ∧
    (GetArchiveFormatInfo { s with handle_map := hm } id_code p).1
        = (GetArchiveFormatInfo s id_code p).1 := by
  refine ⟨?_, ?_⟩
  case refine_2 =>
    unfold GetArchiveFormatInfo
    dsimp only
    cases hl2 : alookup id_code s.id_code_map with
    | none => rfl
    | some f2 =>
      dsimp only
      cases hl3 : alookup (id_code, p) s.format_infos with
      | none => rfl
      | some i => rfl
  cases hl : alookup id_code s.id_code_map with
  | none =>
    rw [show FormatArchive s id_code info p = (Except.error ErrorKind.notFound, s) from by
      unfold FormatArchive
      rw [hl]] at hok
    simp at hok
  | some f =>
    rw [show FormatArchive s id_code info p
        = (Except.ok OpOutput.unit,
            { s with format_infos :=
                ((id_code, p), info) :: aerase (id_code, p) s.format_infos }) from by
      unfold FormatArchive
      rw [hl]]
    unfold GetArchiveFormatInfo
    dsimp only
    rw [hl]
    simp [alookup]

theorem formatArchive_persists_format_info_witness :
    (FormatArchive initState .SaveData demoInfo .empty).1 = Except.ok OpOutput.unit ∧
    (GetArchiveFormatInfo (FormatArchive initState .SaveData demoInfo .empty).2
        .SaveData .empty).1 = Except.ok (OpOutput.formatInfo demoInfo) :=
  ⟨by decide,
    (formatArchive_persists_format_info initState .SaveData demoInfo .empty []
      (by decide)).1⟩

/-- C6: creating an extended save-data location twice fails with
Already-Exists on the second call; deleting a location that does not exist
fails with Not-Found; and delete-then-create of the same identifier
succeeds. -/
theorem extSaveData_create_delete_lifecycle (s : FSState) (media_type : MediaType)
    (high low : Nat) (smdh_icon : List Nat) (format_info : ArchiveFormatInfo) :
    ((CreateExtSaveData s media_type high low smdh_icon format_info).1
        = Except.ok OpOutput.unit →
      (CreateExtSaveData (CreateExtSaveData s media_type high low smdh_icon format_info).2
          media_type high low smdh_icon format_info).1
        = Except.error ErrorKind.alreadyExists) ∧
    (alookup (media_type, high, low) s.ext_save_data = none →
      (DeleteExtSaveData s media_type high low).1 = Except.error ErrorKind.notFound) ∧
    ((DeleteExtSaveData s media_type high low).1 = Except.ok OpOutput.unit →
      (CreateExtSaveData (DeleteExtSaveData s media_type high low).2
          media_type high low smdh_icon format_info).1 = Except.ok OpOutput.unit) := by
  refine ⟨?_, ?_, ?_⟩
  · cases hl : alookup (media_type, high, low) s.ext_save_data with
    | some v =>
      intro hok
      rw [show CreateExtSaveData s media_type high low smdh_icon format_info
          = (Except.error ErrorKind.alreadyExists, s) from by
        unfold CreateExtSaveData
        rw [hl]] at hok
      simp at hok
    | none =>
      intro hok
      rw [show CreateExtSaveData s media_type high low smdh_icon format_info
          = (Except.ok OpOutput.unit,
              { s with ext_save_data :=
                  ((media_type, high, low), (smdh_icon, format_info))
                    :: s.ext_save_data }) from by
        unfold CreateExtSaveData
        rw [hl]]
      unfold CreateExtSaveData
      dsimp only
      simp [alookup]
  · intro hn
    unfold DeleteExtSaveData
    rw [hn]
  · cases hl : alookup (media_type, high, low) s.ext_save_data with
    | none =>
      intro hok
      rw [show DeleteExtSaveData s media_type high low
          = (Except.error ErrorKind.notFound, s) from by
        unfold DeleteExtSaveData
        rw [hl]] at hok
      simp at hok
    | some v =>
      intro hok
      rw [show DeleteExtSaveData s media_type high low
          = (Except.ok OpOutput.unit,
              { s with ext_save_data := aerase (media_type, high, low) s.ext_save_data })
          from by
        unfold DeleteExtSaveData
        rw [hl]]
      unfold CreateExtSaveData
      dsimp only
      rw [alookup_aerase_self]

theorem extSaveData_create_delete_lifecycle_witness :
    (CreateExtSaveData (CreateExtSaveData initState .SDMC 5 7 [] demoInfo).2
        .SDMC 5 7 [] demoInfo).1 = Except.error ErrorKind.alreadyExists ∧
    (DeleteExtSaveData initState .SDMC 5 7).1 = Except.error ErrorKind.notFound ∧
    (CreateExtSaveData
        (DeleteExtSaveData (CreateExtSaveData initState .SDMC 5 7 [] demoInfo).2
          .SDMC 5 7).2 .SDMC 5 7 [] demoInfo).1 = Except.ok OpOutput.unit :=
  ⟨(extSaveData_create_delete_lifecycle initState .SDMC 5 7 [] demoInfo).1 (by decide),
   (extSaveData_create_delete_lifecycle initState .SDMC 5 7 [] demoInfo).2.1 (by decide),
   (extSaveData_create_delete_lifecycle
      (CreateExtSaveData initState .SDMC 5 7 [] demoInfo).2 .SDMC 5 7 [] demoInfo).2.2
      (by decide)⟩

/-- C7: the four extended/system save-data lifecycle operations identify
their target purely by the (medium, high, low) identifier — the result only
depends on the backing-store contents for that identifier space — and they
neither read nor write the handle table or the handle counter. -/
theorem saveData_lifecycle_bypasses_handle_table (s t : FSState)
    (media_type : MediaType) (high low : Nat) (smdh_icon : List Nat)
    (format_info : ArchiveFormatInfo)
    (hext : t.ext_save_data = s.ext_save_data)
    (hsys : t.sys_save_data = s.sys_save_data) :
    ((CreateExtSaveData s media_type high low smdh_icon format_info).2.handle_map
        = s.handle_map ∧
      (CreateExtSaveData s media_type high low smdh_icon format_info).2.next_handle
        = s.next_handle ∧
      (CreateExtSaveData t media_type high low smdh_icon format_info).1
        = (CreateExtSaveData s media_type high low smdh_icon format_info).1) ∧
    ((DeleteExtSaveData s media_type high low).2.handle_map = s.handle_map ∧
      (DeleteExtSaveData s media_type high low).2.next_handle = s.next_handle ∧
      (DeleteExtSaveData t media_type high low).1
        = (DeleteExtSaveData s media_type high low).1) ∧
    ((CreateSystemSaveData s high low).2.handle_map = s.handle_map ∧
      (CreateSystemSaveData s high low).2.next_handle = s.next_handle ∧
      (CreateSystemSaveData t high low).1 = (CreateSystemSaveData s high low).1) ∧
    ((DeleteSystemSaveData s high low).2.handle_map = s.handle_map ∧
      (DeleteSystemSaveData s high low).2.next_handle = s.next_handle ∧
      (DeleteSystemSaveData t high low).1 = (DeleteSystemSaveData s high low).1) := by
  refine ⟨⟨(CreateExtSaveData_frame s media_type high low smdh_icon format_info).1,
      (CreateExtSaveData_frame s media_type high low smdh_icon format_info).2.1, ?_⟩,
    ⟨(DeleteExtSaveData_frame s media_type high low).1,
      (DeleteExtSaveData_frame s media_type high low).2.1, ?_⟩,
    ⟨(CreateSystemSaveData_frame s high low).1,
      (CreateSystemSaveData_frame s high low).2.1, ?_⟩,
    ⟨(DeleteSystemSaveData_frame s high low).1,
      (DeleteSystemSaveData_frame s high low).2.1, ?_⟩⟩
  · unfold CreateExtSaveData
    rw [hext]
    cases hl : alookup (media_type, high, low) s.ext_save_data with
    | none => rfl
    | some v => rfl
  · unfold DeleteExtSaveData
    rw [hext]
    cases hl : alookup (media_type, high, low) s.ext_save_data with
    | none => rfl
    | some v => rfl
  · unfold CreateSystemSaveData
    rw [hsys]
    cases hl : alookup (high, low) s.sys_save_data with
    | none => rfl
    | some v => rfl
  · unfold DeleteSystemSaveData
    rw [hsys]
    cases hl : alookup (high, low) s.sys_save_data with
    | none => rfl
    | some v => rfl

theorem saveData_lifecycle_bypasses_handle_table_witness :
    (CreateExtSaveData demoOpenState .NAND 1 2 [] demoInfo).2.handle_map
        = demoOpenState.handle_map ∧
    (DeleteSystemSaveData demoOpenState 3 4).2.next_handle = demoOpenState.next_handle :=
  ⟨(saveData_lifecycle_bypasses_handle_table demoOpenState demoOpenState .NAND 1 2 []
      demoInfo rfl rfl).1.1,
   (saveData_lifecycle_bypasses_handle_table demoOpenState demoOpenState .NAND 3 4 []
      demoInfo rfl rfl).2.2.2.2.1⟩

/-- C10: a successful CreateFileInArchive(handle, path, file_size) creates a
file whose content is exactly file_size bytes, all zero, in the backend the
handle resolves to. -/
theorem createFileInArchive_zero_filled (s : FSState) (handle : ArchiveHandle)
    (path : Path) (file_size : Nat)
    (hok : (CreateFileInArchive s handle path file_size).1 = Except.ok OpOutput.unit) :
    ∃ b, GetArchive (CreateFileInArchive s handle path file_size).2 handle = some b ∧
      alookup path b.files = some (List.replicate file_size 0) ∧
      (List.replicate file_size 0).length = file_size ∧
      ∀ byte ∈ List.replicate file_size 0, byte = 0 := by
  unfold CreateFileInArchive withArchive at hok ⊢
  cases hG : GetArchive s handle with
  | none =>
    rw [hG] at hok
    simp at hok
  | some backend =>
    rw [hG] at hok
    dsimp only at hok ⊢
    unfold ArchiveBackend.createFile at hok ⊢
    cases hf : alookup path backend.files with
    | some v =>
      rw [hf] at hok
      simp at hok
    | none =>
      dsimp only
      refine ⟨{ backend with
          files := (path, List.replicate file_size 0) :: backend.files }, ?_, ?_, ?_, ?_⟩
      · exact alookup_aupdate_self _ hG
      · simp [alookup]
      · exact List.length_replicate _ _
      · intro byte hb
        exact List.eq_of_mem_replicate hb

theorem createFileInArchive_zero_filled_witness :
    (CreateFileInArchive demoOpenState 1 (Path.binary [7]) 3).1
        = Except.ok OpOutput.unit ∧
    ∃ b, GetArchive (CreateFileInArchive demoOpenState 1 (Path.binary [7]) 3).2 1
          = some b ∧
      alookup (Path.binary [7]) b.files = some (List.replicate 3 0) ∧
      (List.replicate 3 0).length = 3 ∧
      ∀ byte ∈ List.replicate 3 0, byte = 0 :=
  ⟨by decide,
    createFileInArchive_zero_filled demoOpenState 1 (Path.binary [7]) 3 (by decide)⟩

/-- C4: the archive category codes and storage medium codes are preserved
bit-exact: the ten category enumerators carry the fixed unsigned 32-bit
values of archive.h, and the media codes are NAND = 0, SDMC = 1,
GameCard = 2. -/
theorem archive_category_codes_bit_exact :
    ArchiveIdCode.code .SelfNCCH = 0x00000003 ∧
    ArchiveIdCode.code .SaveData = 0x00000004 ∧
    ArchiveIdCode.code .ExtSaveData = 0x00000006 ∧
    ArchiveIdCode.code .SharedExtSaveData = 0x00000007 ∧
    ArchiveIdCode.code .SystemSaveData = 0x00000008 ∧
    ArchiveIdCode.code .SDMC = 0x00000009 ∧
    ArchiveIdCode.code .SDMCWriteOnly = 0x0000000A ∧
    ArchiveIdCode.code .NCCH = 0x2345678A ∧
    ArchiveIdCode.code .OtherSaveDataGeneral = 0x567890B2 ∧
    ArchiveIdCode.code .OtherSaveDataPermitted = 0x567890B4 ∧
    MediaType.code .NAND = 0 ∧
    MediaType.code .SDMC = 1 ∧
    MediaType.code .GameCard = 2 := by
  decide

/-- C8 counterexample: the public operation surface of ArchiveManager is not
thirteen operations: archive.h declares nineteen public member functions
besides the constructor. -/
theorem public_operation_surface_not_thirteen :
    ¬ (ArchiveManagerPublicOperations.length = 13) := by
  decide

/-- C8 amended: the public operation surface of the core is exactly the
nineteen distinct operations enumerated in spec §4 plus registry
construction. -/
theorem public_operation_surface_nineteen :
    ArchiveManagerPublicOperations.length = 19 ∧
    ArchiveManagerPublicOperations.Nodup := by
  decide

/-- C9: after construction no public operation removes or replaces a registry
entry: along every operation sequence the registry key set stays exactly the
key set established at construction, which is the ten known categories. -/
theorem registry_key_set_stable (fenv : FactoryEnv) (ops : List Op) :
    akeys (runOps fenv initState ops).id_code_map = akeys initState.id_code_map ∧
    akeys initState.id_code_map = allArchiveIdCodes :=
  ⟨runOps_id_code_keys fenv ops initState, by decide⟩

end ServiceFS
